import Mathlib

/-!
Verification development for the Telegram multi-LLM bot (`telegram-bot-main.py`).

Modelling conventions:
* Python strings are modelled as `List Char`; Lean `String` literals are
  converted with `String.toList` where convenient.
* An inbound Telegram update is an `Upd` record (sender id, chat id, text,
  attachment flags); configuration loaded at start is a `Cfg` record.
* Handler side effects (messages sent, Telegram file fetches, provider API
  calls, database writes) are modelled as explicit `Event` traces.
* Python exceptions are modelled with `Except PyErr`; a handler returns its
  event trace together with `Option PyErr`, the uncaught exception if any.
* Network calls to the LLM providers are modelled by an oracle argument of
  type `Except String _`: `Except.ok` is a successful reply, `Except.error`
  stands for any exception raised during the call (network, auth, malformed
  response).
-/

namespace TGBot

/-- ASCII characters treated as whitespace by Python `str.split()`,
`str.strip()` and `str.lstrip()`: space, tab, newline, carriage return,
vertical tab (11), form feed (12). -/
def pyIsSpace (c : Char) : Bool :=
  c == ' ' || c == '\t' || c == '\n' || c == '\r' || c == Char.ofNat 11 || c == Char.ofNat 12

def wordCountGo : List Char → Bool → Nat
  | [], _ => 0
  | c :: cs, inWord =>
    if pyIsSpace c then wordCountGo cs false
    else (if inWord then 0 else 1) + wordCountGo cs true

/-- `len(s.split())`: the number of maximal whitespace-free runs of `s`. -/
def wordCount (s : List Char) : Nat := wordCountGo s false

/-- Python `s.lstrip()`. -/
def pyLstrip (s : List Char) : List Char := s.dropWhile pyIsSpace

/-- Python `s.strip()`. -/
def pyStrip (s : List Char) : List Char :=
  ((s.dropWhile pyIsSpace).reverse.dropWhile pyIsSpace).reverse

/-- One left-to-right pass of Python `s.replace(pat, rep)` for a non-empty
pattern, with explicit fuel (`s.length` suffices). -/
def pyReplaceGo (pat rep : List Char) : Nat → List Char → List Char
  | 0, s => s
  | _ + 1, [] => []
  | fuel + 1, c :: cs =>
    if pat.isPrefixOf (c :: cs) then rep ++ pyReplaceGo pat rep fuel ((c :: cs).drop pat.length)
    else c :: pyReplaceGo pat rep fuel cs

/-- Python `s.replace(pat, rep)`.  The bot only ever replaces the non-empty
literals `'/compare'` and `'/generate_image'`, so the empty-pattern case
(which Python treats specially) is mapped to the identity. -/
def pyReplace (s pat rep : List Char) : List Char :=
  if pat.isEmpty then s else pyReplaceGo pat rep s.length s

/-- Python `s.rfind(c)` restricted to single-character needles: index of the
last occurrence of `c` in `s`, or `none` (Python's `-1`). -/
def pyRfind (c : Char) : List Char → Option Nat
  | [] => none
  | a :: as =>
    match pyRfind c as with
    | some k => some (k + 1)
    | none => if a = c then some 0 else none

/-- The characters escaped by `escape_markdown` (line 359 of the source). -/
def escape_chars : List Char := "_*[]()~`>#+-=|\x7b\x7d.!".toList

/-- Model of `escape_markdown(text)`: prefix every special character with a
backslash. -/
def escape_markdown : List Char → List Char
  | [] => []
  | c :: cs => (if escape_chars.contains c then ['\\', c] else [c]) ++ escape_markdown cs

/-- Plain concatenation of a list of message parts. -/
def concatParts : List (List Char) → List Char
  | [] => []
  | p :: ps => p ++ concatParts ps

/-- Interleave parts with separators: `p1 ++ s1 ++ p2 ++ s2 ++ ...`; missing
separators count as empty. -/
def joinWithSeps : List (List Char) → List (List Char) → List Char
  | [], _ => []
  | p :: ps, [] => p ++ joinWithSeps ps []
  | p :: ps, t :: ts => p ++ t ++ joinWithSeps ps ts

/-- Python `'\n'.join(parts)`. -/
def joinNl : List (List Char) → List Char
  | [] => []
  | [p] => p
  | p :: ps => p ++ '\n' :: joinNl ps

/-- Loop body of `split_long_message` (lines 249-257): while the message is
longer than `max_length`, cut the largest prefix of size `max_length`; if it
contains a newline, cut just before the last newline and drop that newline
from the remainder, otherwise hard-cut at `max_length`.  After the loop the
non-empty remainder is appended.  Fuel `message.length` suffices whenever
`1 ≤ max_length`, since every iteration consumes at least one character. -/
def slmLoop (max_length : Nat) : Nat → List Char → List (List Char)
  | 0, _ => []
  | fuel + 1, message =>
    if message.length ≤ max_length then
      if message.isEmpty then [] else [message]
    else
      match pyRfind '\n' (message.take max_length) with
      | some k => message.take k :: slmLoop max_length fuel (message.drop (k + 1))
      | none => message.take max_length :: slmLoop max_length fuel (message.drop max_length)

/-- Model of `split_long_message(message, max_length)` (lines 237-262). -/
def split_long_message (message : List Char) (max_length : Nat) : List (List Char) :=
  if message.length ≤ max_length then [message]
  else slmLoop max_length message.length message

/-- Telegram's maximum message length (line 15 of the source). -/
def MAX_MESSAGE_LENGTH : Nat := 4096

/-- Loop body of the inline splitter of `process_message` (lines 311-321):
while the response is non-empty, emit it whole once it fits, otherwise cut at
the last newline inside the first `MAX_MESSAGE_LENGTH` characters (or
hard-cut at `MAX_MESSAGE_LENGTH`) and `lstrip` the remainder.  Fuel
`full_response.length` suffices, since every iteration consumes at least one
character. -/
def inlineLoop : Nat → List Char → List (List Char)
  | 0, _ => []
  | fuel + 1, full_response =>
    if full_response.isEmpty then []
    else if full_response.length ≤ MAX_MESSAGE_LENGTH then [full_response]
    else
      match pyRfind '\n' (full_response.take MAX_MESSAGE_LENGTH) with
      | some k => full_response.take k :: inlineLoop fuel (pyLstrip (full_response.drop k))
      | none =>
        full_response.take MAX_MESSAGE_LENGTH ::
          inlineLoop fuel (pyLstrip (full_response.drop MAX_MESSAGE_LENGTH))

/-- The inline response splitter of `process_message` (lines 311-321). -/
def inline_split (full_response : List Char) : List (List Char) :=
  inlineLoop full_response.length full_response

/-- Model of `is_authorized(update)` (lines 42-50): the Python truthiness
test `AUTHORIZED_USERS and user_id in AUTHORIZED_USERS` (and likewise for
groups), followed by `return False`. -/
def is_authorized (authorizedUsers authorizedGroups : List Int) (user_id chat_id : Int) : Bool :=
  (!authorizedUsers.isEmpty && authorizedUsers.contains user_id)
  || (!authorizedGroups.isEmpty && authorizedGroups.contains chat_id)

/-- A Python runtime error: `NameError` for an unresolvable name, `exn` for
any other exception (carrying its message). -/
inductive PyErr where
  | nameError (n : String)
  | exn (msg : String)
  deriving DecidableEq

/-- Observable side effects of the handlers. `getFile` is the
`context.bot.get_file(...)` Telegram call that begins resolving an
attachment; `download` is `file.download_as_bytearray()`; `apiCall` is a
network request to an LLM provider; `dbWriteUsage` is `save_api_usage`;
`dbWriteConv` is `save_to_database`. -/
inductive Event where
  | send (chatId : Int) (text : List Char)
  | sendPhoto (chatId : Int)
  | authCheck (ok : Bool)
  | getFile
  | download
  | apiCall (api : String)
  | dbWriteUsage (api : String) (prompt_tokens completion_tokens total_tokens : Nat)
  | dbWriteConv (userId : Int)
  deriving DecidableEq

/-- Every name bound at module level in `telegram-bot-main.py` (imports,
assignments, `with open(...) as f`, and top-level `def`s). -/
def moduleGlobalNames : List String :=
  ["os", "logging", "asyncio", "json", "Update", "Application", "CommandHandler",
   "MessageHandler", "filters", "ContextTypes", "sqlite3", "openai", "Anthropic",
   "base64", "load_dotenv", "MAX_MESSAGE_LENGTH", "logger", "TELEGRAM_TOKEN",
   "OPENAI_API_KEY", "ANTHROPIC_API_KEY", "OPENAI_MODEL", "OPENAI_TOKENS",
   "ANTHROPIC_MODEL", "ANTHROPIC_TOKENS", "IMAGE_GEN_MODEL", "get_authorized_ids",
   "AUTHORIZED_USERS", "AUTHORIZED_GROUPS", "is_authorized", "anthropic", "f",
   "CHAT_MODES", "setup_database", "start", "help_command", "get_file_content",
   "gpt_request", "claude_request", "split_long_message", "process_message",
   "escape_markdown", "gpt_command", "claude_command", "compare_command",
   "generate_image_command", "set_mode_command", "balance_command",
   "recent_usage_command", "save_to_database", "save_api_usage", "main"]

/-- The Python builtins (none of them is named `update` or `prompt`). -/
def pyBuiltins : List String :=
  ["print", "len", "int", "str", "float", "bool", "bytes", "bytearray", "open",
   "range", "enumerate", "list", "dict", "set", "tuple", "frozenset", "sum",
   "min", "max", "abs", "id", "type", "isinstance", "issubclass", "getattr",
   "setattr", "delattr", "hasattr", "input", "format", "repr", "sorted", "map",
   "filter", "zip", "super", "object", "all", "any", "next", "iter", "round",
   "divmod", "pow", "ord", "chr", "hex", "oct", "bin", "vars", "globals",
   "locals", "callable", "staticmethod", "classmethod", "property", "slice",
   "reversed", "hash", "memoryview", "complex", "compile", "dir", "help",
   "Exception", "BaseException", "ValueError", "NameError", "KeyError",
   "IndexError", "TypeError", "AttributeError", "RuntimeError", "StopIteration",
   "OSError", "IOError", "True", "False", "None"]

/-- Resolution of a name that is not assigned in the enclosing function:
Python falls back to the module globals and then the builtins, raising
`NameError` when both fail. -/
def lookupGlobal (n : String) : Except PyErr Unit :=
  if moduleGlobalNames.contains n || pyBuiltins.contains n then Except.ok ()
  else Except.error (PyErr.nameError n)

/-- Model of `get_file_content(file)` (lines 138-144).  Its first statement
evaluates `is_authorized(update)`, but `update` is not the parameter (`file`
is), is never assigned in the function, and is neither a module global nor a
builtin, so evaluating it raises `NameError` before
`file.download_as_bytearray()` can run.  `downloaded` stands for the bytes
the (unreachable) download would return. -/
def get_file_content_run (downloaded : String) : Except PyErr String × List Event :=
  match lookupGlobal "update" with
  | Except.error e => (Except.error e, [])
  | Except.ok _ => (Except.ok downloaded, [Event.download])

/-- An inbound Telegram update as seen by the handlers. -/
structure Upd where
  userId : Int
  chatId : Int
  messageText : String
  hasDocument : Bool
  hasPhoto : Bool
  deriving DecidableEq

/-- Configuration loaded at process start. -/
structure Cfg where
  authorizedUsers : List Int
  authorizedGroups : List Int
  chatModes : List (String × String)

/-- Attachment resolution inside `process_message` (lines 279-300): each
`get_file_content` call sits in a `try/except` that logs the error and
continues, so a failure leaves `image_content = None`. -/
def resolve_attachment (upd : Upd) (downloaded : String) : Option String × List Event :=
  if upd.hasDocument then
    match get_file_content_run downloaded with
    | (Except.error _, evs) => (none, Event.getFile :: evs)
    | (Except.ok s, evs) => (some s, Event.getFile :: evs)
  else if upd.hasPhoto then
    match get_file_content_run downloaded with
    | (Except.error _, evs) => (none, Event.getFile :: evs)
    | (Except.ok s, evs) => (some s, Event.getFile :: evs)
  else (none, [])

/-- A provider adapter: `(prompt, image_content, mode) ↦ (reply text, side
effects)`.  The codomain is a plain value (not `Except`), which is exactly
the adapters' contract in the source: their whole body is wrapped in
`try/except Exception`. -/
def Provider : Type := String → Option String → Option String → String × List Event

/-- The fields of an OpenAI chat completion reply used by `gpt_request`. -/
structure GptResponse where
  text : String
  prompt_tokens : Nat
  completion_tokens : Nat
  total_tokens : Nat

/-- Model of `gpt_request(prompt, image_content, mode)` (lines 146-187).
The oracle stands for the `openai.chat.completions.create` call; on success
the provider-reported token counts are saved verbatim and the reply text is
returned stripped; any exception is caught and converted to the literal
error string. -/
def gpt_request (oracle : Except String GptResponse) : Provider :=
  fun _prompt _image_content _mode =>
    match oracle with
    | Except.ok r =>
      (String.mk (pyStrip r.text.toList),
       [Event.apiCall "openai",
        Event.dbWriteUsage "openai" r.prompt_tokens r.completion_tokens r.total_tokens])
    | Except.error _ => ("Error occurred while processing GPT request.", [Event.apiCall "openai"])

/-- `message_content` as built by `claude_request` (lines 192-195): the mode
instruction is prepended (`"{system_prompt}\n\nHuman: {prompt}"`) when `mode`
is truthy and is a key of `CHAT_MODES`. -/
def claude_message_content (chatModes : List (String × String)) (prompt : String)
    (mode : Option String) : String :=
  match mode with
  | none => prompt
  | some m =>
    if m = "" then prompt
    else
      match chatModes.lookup m with
      | some system_prompt => system_prompt ++ "\n\nHuman: " ++ prompt
      | none => prompt

/-- The text segment actually placed in the Anthropic request (lines
197-205): with an image the message uses the bare `prompt`, otherwise it
uses `message_content`. -/
def claude_sent_text (chatModes : List (String × String)) (prompt : String)
    (mode : Option String) (image_content : Option String) : String :=
  if image_content.isSome then prompt else claude_message_content chatModes prompt mode

/-- The token triple recorded by `claude_request` (lines 218-221):
whitespace word counts of `message_content` and of the reply, totalled. -/
def claude_usage (chatModes : List (String × String)) (prompt responseText : String)
    (mode : Option String) : Nat × Nat × Nat :=
  let p := wordCount (claude_message_content chatModes prompt mode).toList
  let c := wordCount responseText.toList
  (p, c, p + c)

/-- Model of `claude_request(prompt, image_content, mode)` (lines 189-235).
The oracle stands for the `anthropic.messages.create` call; on success the
estimated token counts are saved and the reply text returned; any exception
is caught and converted to the literal error string. -/
def claude_request (oracle : Except String String) (chatModes : List (String × String)) :
    Provider :=
  fun prompt _image_content mode =>
    match oracle with
    | Except.ok responseText =>
      (responseText,
       [Event.apiCall "anthropic",
        Event.dbWriteUsage "anthropic"
          (claude_usage chatModes prompt responseText mode).1
          (claude_usage chatModes prompt responseText mode).2.1
          (claude_usage chatModes prompt responseText mode).2.2])
    | Except.error _ =>
      ("Error occurred while processing Claude request.", [Event.apiCall "anthropic"])

/-- One `Part i/N:`-labelled, markdown-escaped send per response part
(lines 331-338), with `i` counted from 1. -/
def partSends (chatId : Int) (n i : Nat) : List (List Char) → List Event
  | [] => []
  | p :: ps =>
    Event.send chatId
        (escape_markdown (("Part " ++ toString i ++ "/" ++ toString n ++ ":\n\n").toList ++ p))
      :: partSends chatId n (i + 1) ps

/-- Model of `process_message(update, context, model_request, model_name,
image_content, prompt)` (lines 264-354).  `store` is `context.user_data`
(keyed by the Telegram user id), `downloaded` the bytes an attachment
download would yield.  Returns the event trace and the returned joined
response (None when the handler returns early, unauthorized). -/
def process_message (cfg : Cfg) (upd : Upd) (store : Int → Option String)
    (model_request : Provider) (model_name : String)
    (image_content : Option String) (prompt : Option String) (downloaded : String) :
    List Event × Option (List Char) :=
  let user_message : String := match prompt with | some p => p | none => upd.messageText
  let mode := store upd.userId
  if is_authorized cfg.authorizedUsers cfg.authorizedGroups upd.userId upd.chatId = false then
    ([Event.authCheck false,
      Event.send upd.chatId "Sorry, you are not authorized to use this bot.".toList], none)
  else
    let att : Option String × List Event :=
      match image_content with
      | some s => (some s, [])
      | none => resolve_attachment upd downloaded
    let pr := model_request user_message att.fst mode
    let full_response := ("*" ++ model_name ++ " says:*\n\n" ++ pr.fst).toList
    let parts := inline_split full_response
    let n := parts.length
    let notice :=
      if 1 < n then
        [Event.send upd.chatId ("Multi-part answer - expecting " ++ toString n ++ " messages").toList]
      else []
    (Event.authCheck true ::
       (att.snd ++ pr.snd ++ notice ++ partSends upd.chatId n 1 parts
         ++ [Event.dbWriteConv upd.userId]),
     some (joinNl parts))

/-- Model of `gpt_command` (lines 362-366): acknowledge, then delegate to
`process_message` with the GPT adapter. -/
def gpt_command (cfg : Cfg) (upd : Upd) (store : Int → Option String)
    (oracle : Except String GptResponse) (downloaded : String) : List Event :=
  Event.send upd.chatId "hold on a sec".toList ::
    (process_message cfg upd store (gpt_request oracle) "GPT" none none downloaded).fst

/-- Model of `claude_command` (lines 368-372). -/
def claude_command (cfg : Cfg) (upd : Upd) (store : Int → Option String)
    (oracle : Except String String) (downloaded : String) : List Event :=
  Event.send upd.chatId "hold on a sec".toList ::
    (process_message cfg upd store (claude_request oracle cfg.chatModes) "Claude" none none
      downloaded).fst

/-- Model of `compare_command` (lines 374-416).  After the processing notice
and the (unguarded) attachment fetch, line 400 evaluates the name `prompt`,
which is not assigned anywhere in the function and is not a global, so the
handler raises `NameError` there; with an attachment it already raises
`NameError` inside `get_file_content` (unbound `update`), which no
`try/except` catches here.  Either way the two `process_message` calls are
never reached, so the `Except.ok` continuations below are dead code.  Note
the handler never consults the configuration: it contains no authorization
check of its own (`_cfg` is unused). -/
def compare_command (_cfg : Cfg) (upd : Upd) (downloaded : String) :
    List Event × Option PyErr :=
  let evs0 := [Event.send upd.chatId "Processing your request, please wait...".toList]
  let _user_message := pyStrip (pyReplace upd.messageText.toList "/compare".toList [])
  if upd.hasDocument then
    match get_file_content_run downloaded with
    | (Except.error e, gevs) => (evs0 ++ Event.getFile :: gevs, some e)
    | (Except.ok _, gevs) =>
      match lookupGlobal "prompt" with
      | Except.error e => (evs0 ++ Event.getFile :: gevs, some e)
      | Except.ok _ => (evs0 ++ Event.getFile :: gevs, none)
  else if upd.hasPhoto then
    match get_file_content_run downloaded with
    | (Except.error e, gevs) => (evs0 ++ Event.getFile :: gevs, some e)
    | (Except.ok _, gevs) =>
      match lookupGlobal "prompt" with
      | Except.error e => (evs0 ++ Event.getFile :: gevs, some e)
      | Except.ok _ => (evs0 ++ Event.getFile :: gevs, none)
  else
    match lookupGlobal "prompt" with
    | Except.error e => (evs0, some e)
    | Except.ok _ => (evs0, none)

/-- Model of `set_mode_command` (lines 465-480).  `store` is
`context.user_data`, which python-telegram-bot keys by the *user* id (one
dict per user, shared across every chat that user is in); the chat id plays
no role in it.  Returns the updated store and the event trace. -/
def set_mode_command (cfg : Cfg) (upd : Upd) (store : Int → Option String)
    (args : List String) : (Int → Option String) × List Event :=
  let mode := args.head?
  if is_authorized cfg.authorizedUsers cfg.authorizedGroups upd.userId upd.chatId = false then
    (store, [Event.authCheck false,
             Event.send upd.chatId "Sorry, you are not authorized to use this bot.".toList])
  else
    match mode with
    | some m =>
      if m = "reset" then
        ((fun u => if u = upd.userId then none else store u),
         [Event.authCheck true, Event.send upd.chatId "Chat mode reset to normal.".toList])
      else if m ≠ "" ∧ (cfg.chatModes.lookup m).isSome then
        ((fun u => if u = upd.userId then some m else store u),
         [Event.authCheck true, Event.send upd.chatId ("Chat mode set to: " ++ m).toList])
      else
        (store,
         [Event.authCheck true,
          Event.send upd.chatId
            ("Invalid mode. Available modes are: "
              ++ String.intercalate ", " (cfg.chatModes.map Prod.fst)
              ++ ". Please use '/mode reset' to return to standard chat mode").toList])
    | none =>
      (store,
       [Event.authCheck true,
        Event.send upd.chatId
          ("Invalid mode. Available modes are: "
            ++ String.intercalate ", " (cfg.chatModes.map Prod.fst)
            ++ ". Please use '/mode reset' to return to standard chat mode").toList])

/-- The active-mode read of `process_message` line 268
(`context.user_data.get('mode')`): `user_data` is keyed by the user id, so
the conversation (chat) id is ignored. -/
def get_active (store : Int → Option String) (userId : Int) (_chatId : Int) : Option String :=
  store userId

/-- Model of `generate_image_command` (lines 418-463).  The oracle stands
for `openai.images.generate` (ok carries the image URL). -/
def generate_image_command (cfg : Cfg) (upd : Upd) (oracle : Except String String) :
    List Event :=
  if is_authorized cfg.authorizedUsers cfg.authorizedGroups upd.userId upd.chatId = false then
    [Event.authCheck false,
     Event.send upd.chatId "Sorry, you are not authorized to use this bot.".toList]
  else
    let prompt := pyStrip (pyReplace upd.messageText.toList "/generate_image".toList [])
    if prompt.isEmpty then
      [Event.authCheck true,
       Event.send upd.chatId "Please provide a prompt for image generation.".toList]
    else
      match oracle with
      | Except.ok _url =>
        [Event.authCheck true, Event.apiCall "openai_image",
         Event.dbWriteUsage "openai_image" (wordCount prompt) 0 (wordCount prompt),
         Event.sendPhoto upd.chatId]
      | Except.error _ =>
        [Event.authCheck true, Event.apiCall "openai_image",
         Event.send upd.chatId
           "An error occurred while generating the image. Please try again later.".toList]

/-- Events that touch a provider or the persistent database. -/
def isProviderOrDb : Event → Bool
  | Event.apiCall _ => true
  | Event.dbWriteUsage _ _ _ _ => true
  | Event.dbWriteConv _ => true
  | _ => false

/-- Steps that the access-control contract forbids before authorization:
file fetches/downloads, provider calls, database writes. -/
def forbiddenStep : Event → Bool
  | Event.getFile => true
  | Event.download => true
  | Event.apiCall _ => true
  | Event.dbWriteUsage _ _ _ _ => true
  | Event.dbWriteConv _ => true
  | _ => false

def isAuthCheck : Event → Bool
  | Event.authCheck _ => true
  | _ => false

/-- `authFirst evs = true` iff no forbidden step occurs before the first
authorization check in the trace. -/
def authFirst : List Event → Bool
  | [] => true
  | e :: es => if isAuthCheck e then true else if forbiddenStep e then false else authFirst es

/-- Concrete test fixtures used by witnesses and counterexamples. -/
def cfg0 : Cfg := { authorizedUsers := [], authorizedGroups := [], chatModes := [] }

def cfg1 : Cfg :=
  { authorizedUsers := [1], authorizedGroups := [], chatModes := [("x", "be creative")] }

def upd0 : Upd :=
  { userId := 0, chatId := 5, messageText := "", hasDocument := false, hasPhoto := false }

def updDoc : Upd :=
  { userId := 0, chatId := 5, messageText := "", hasDocument := true, hasPhoto := false }

def upd1 : Upd :=
  { userId := 1, chatId := 10, messageText := "", hasDocument := false, hasPhoto := false }

def store0 : Int → Option String := fun _ => none

/-! ### Helper lemmas about the splitters -/

theorem pyRfind_eq_some {c : Char} :
    ∀ {l : List Char} {k : Nat}, pyRfind c l = some k →
      k < l.length ∧ l.take k ++ c :: l.drop (k + 1) = l := by
  intro l
  induction l with
  | nil => intro k h; simp [pyRfind] at h
  | cons a as ih =>
    intro k h
    rw [pyRfind] at h
    cases hr : pyRfind c as with
    | some k2 =>
      rw [hr] at h
      obtain rfl : k2 + 1 = k := by simpa using h
      obtain ⟨hlt, hdec⟩ := ih hr
      refine ⟨by simpa using Nat.succ_lt_succ hlt, ?_⟩
      simpa [List.take_succ_cons, List.drop_succ_cons] using congrArg (a :: ·) hdec
    | none =>
      rw [hr] at h
      by_cases hac : a = c
      · simp [hac] at h
        subst h
        simp [hac]
      · simp [hac] at h

theorem drop_take_append_drop (l : List Char) {j n : Nat} (h : j ≤ n) :
    (l.take n).drop j ++ l.drop n = l.drop j := by
  rw [List.drop_take]
  have h2 : l.drop n = (l.drop j).drop (n - j) := by
    rw [List.drop_drop]
    congr 1
    omega
  rw [h2, List.take_append_drop]

/-- When `rfind` locates the last newline of the size-`n` window, the whole
string decomposes around that newline. -/
theorem pyRfind_take_decomp {l : List Char} {n k : Nat}
    (h : pyRfind '\n' (l.take n) = some k) :
    k < n ∧ k < l.length ∧ l.take k ++ '\n' :: l.drop (k + 1) = l := by
  obtain ⟨hk, hdec⟩ := pyRfind_eq_some h
  rw [List.length_take] at hk
  have hkn : k < n := lt_of_lt_of_le hk (min_le_left _ _)
  have hkl : k < l.length := lt_of_lt_of_le hk (min_le_right _ _)
  refine ⟨hkn, hkl, ?_⟩
  have htk : (l.take n).take k = l.take k := by
    rw [List.take_take]
    congr 1
    omega
  have hdr : (l.take n).drop (k + 1) ++ l.drop n = l.drop (k + 1) :=
    drop_take_append_drop l (by omega)
  calc l.take k ++ '\n' :: l.drop (k + 1)
      = l.take k ++ '\n' :: ((l.take n).drop (k + 1) ++ l.drop n) := by rw [hdr]
    _ = ((l.take n).take k ++ '\n' :: (l.take n).drop (k + 1)) ++ l.drop n := by
        rw [htk]; simp
    _ = l.take n ++ l.drop n := by rw [hdec]
    _ = l := List.take_append_drop n l

theorem slmLoop_reconstruct (max_length : Nat) (hm : 1 ≤ max_length) :
    ∀ (fuel : Nat) (message : List Char), message.length ≤ fuel →
      ∃ seps : List (List Char),
        (∀ t ∈ seps, t = [] ∨ t = ['\n']) ∧
        joinWithSeps (slmLoop max_length fuel message) seps = message := by
  intro fuel
  induction fuel with
  | zero =>
    intro message hlen
    obtain rfl : message = [] := List.length_eq_zero.mp (Nat.le_zero.mp hlen)
    exact ⟨[], by simp, by simp [slmLoop, joinWithSeps]⟩
  | succ fuel ih =>
    intro message hlen
    by_cases hle : message.length ≤ max_length
    · refine ⟨[], by simp, ?_⟩
      by_cases hemp : message.isEmpty
      · have : message = [] := List.isEmpty_iff.mp hemp
        simp [slmLoop, hle, hemp, joinWithSeps, this]
      · simp [slmLoop, hle, hemp, joinWithSeps]
    · cases hr : pyRfind '\n' (message.take max_length) with
      | some k =>
        obtain ⟨hkn, hkl, hdec⟩ := pyRfind_take_decomp hr
        obtain ⟨seps, hseps, hjoin⟩ := ih (message.drop (k + 1)) (by
          rw [List.length_drop]; omega)
        refine ⟨['\n'] :: seps, ?_, ?_⟩
        · intro t ht
          rcases List.mem_cons.mp ht with ht | ht
          · right; exact ht
          · exact hseps t ht
        · simp only [slmLoop, hr]
          rw [if_neg hle]
          simp only [joinWithSeps]
          rw [hjoin]
          simpa using hdec
      | none =>
        obtain ⟨seps, hseps, hjoin⟩ := ih (message.drop max_length) (by
          rw [List.length_drop]; omega)
        refine ⟨[] :: seps, ?_, ?_⟩
        · intro t ht
          rcases List.mem_cons.mp ht with ht | ht
          · left; exact ht
          · exact hseps t ht
        · simp only [slmLoop, hr]
          rw [if_neg hle]
          simp only [joinWithSeps]
          rw [hjoin]
          simp [List.take_append_drop]

theorem slmLoop_length_le (max_length : Nat) :
    ∀ (fuel : Nat) (message : List Char), ∀ p ∈ slmLoop max_length fuel message,
      p.length ≤ max_length := by
  intro fuel
  induction fuel with
  | zero => intro message p hp; simp [slmLoop] at hp
  | succ fuel ih =>
    intro message p hp
    by_cases hle : message.length ≤ max_length
    · by_cases hemp : message.isEmpty
      · simp [slmLoop, hle, hemp] at hp
      · simp [slmLoop, hle, hemp] at hp
        subst hp
        exact hle
    · cases hr : pyRfind '\n' (message.take max_length) with
      | some k =>
        obtain ⟨hkn, hkl, _⟩ := pyRfind_take_decomp hr
        simp only [slmLoop, hr] at hp
        rw [if_neg hle] at hp
        rcases List.mem_cons.mp hp with rfl | hp
        · rw [List.length_take]
          omega
        · exact ih _ p hp
      | none =>
        simp only [slmLoop, hr] at hp
        rw [if_neg hle] at hp
        rcases List.mem_cons.mp hp with rfl | hp
        · rw [List.length_take]
          omega
        · exact ih _ p hp

/-- `split_long_message` loses exactly the separator dropped at each cut:
re-inserting an empty separator at each hard cut and one newline at each
line-boundary cut reproduces the input. -/
theorem split_long_message_reconstruct (message : List Char) (max_length : Nat)
    (hm : 1 ≤ max_length) :
    ∃ seps : List (List Char),
      (∀ t ∈ seps, t = [] ∨ t = ['\n']) ∧
      joinWithSeps (split_long_message message max_length) seps = message := by
  by_cases hle : message.length ≤ max_length
  · exact ⟨[], by simp, by simp [split_long_message, hle, joinWithSeps]⟩
  · rw [split_long_message, if_neg hle]
    exact slmLoop_reconstruct max_length hm message.length message le_rfl

theorem split_long_message_length_le (message : List Char) (max_length : Nat) :
    ∀ p ∈ split_long_message message max_length, p.length ≤ max_length := by
  intro p hp
  by_cases hle : message.length ≤ max_length
  · simp [split_long_message, hle] at hp
    subst hp
    exact hle
  · rw [split_long_message, if_neg hle] at hp
    exact slmLoop_length_le max_length message.length message p hp

theorem length_dropWhile_le (p : Char → Bool) (l : List Char) :
    (l.dropWhile p).length ≤ l.length := by
  induction l with
  | nil => simp
  | cons c cs ih =>
    rw [List.dropWhile_cons]
    by_cases h : p c
    · simp only [h, if_true]
      exact le_trans ih (Nat.le_succ _)
    · simp [h]

theorem length_pyLstrip_lt_of_head (t : List Char) (c : Char) (hc : pyIsSpace c = true) :
    (pyLstrip (c :: t)).length ≤ t.length := by
  rw [pyLstrip, List.dropWhile_cons]
  simp only [hc, if_true]
  exact length_dropWhile_le pyIsSpace t

theorem inlineLoop_reconstruct :
    ∀ (fuel : Nat) (fr : List Char), fr.length ≤ fuel →
      ∃ seps : List (List Char),
        (∀ t ∈ seps, ∀ ch ∈ t, pyIsSpace ch = true) ∧
        joinWithSeps (inlineLoop fuel fr) seps = fr := by
  intro fuel
  induction fuel with
  | zero =>
    intro fr hlen
    obtain rfl : fr = [] := List.length_eq_zero.mp (Nat.le_zero.mp hlen)
    exact ⟨[], by simp, by simp [inlineLoop, joinWithSeps]⟩
  | succ fuel ih =>
    intro fr hlen
    by_cases hemp : fr.isEmpty
    · obtain rfl : fr = [] := List.isEmpty_iff.mp hemp
      exact ⟨[], by simp, by simp [inlineLoop, joinWithSeps]⟩
    · by_cases hle : fr.length ≤ MAX_MESSAGE_LENGTH
      · refine ⟨[], by simp, ?_⟩
        simp [inlineLoop, hemp, hle, joinWithSeps]
      · have hfr1 : 1 ≤ fr.length := by
          cases fr with
          | nil => simp at hemp
          | cons a as => simp
        cases hr : pyRfind '\n' (fr.take MAX_MESSAGE_LENGTH) with
        | some k =>
          obtain ⟨hkn, hkl, hdec⟩ := pyRfind_take_decomp hr
          have hnew : (pyLstrip (fr.drop k)).length ≤ fuel := by
            rcases Nat.eq_zero_or_pos k with rfl | hk
            · have hfr : fr = '\n' :: fr.drop 1 := by simpa using hdec.symm
              have : (pyLstrip (fr.drop 0)).length ≤ (fr.drop 1).length := by
                rw [List.drop_zero]
                conv_lhs => rw [hfr]
                exact length_pyLstrip_lt_of_head _ _ (by decide)
              rw [List.length_drop] at this
              omega
            · have h1 : (pyLstrip (fr.drop k)).length ≤ (fr.drop k).length :=
                length_dropWhile_le pyIsSpace _
              rw [List.length_drop] at h1
              omega
          obtain ⟨seps, hseps, hjoin⟩ := ih (pyLstrip (fr.drop k)) hnew
          refine ⟨(fr.drop k).takeWhile pyIsSpace :: seps, ?_, ?_⟩
          · intro t ht
            rcases List.mem_cons.mp ht with rfl | ht
            · intro ch hch
              exact List.mem_takeWhile_imp hch
            · exact hseps t ht
          · simp only [inlineLoop, hr]
            rw [if_neg (by simpa using hemp), if_neg hle]
            simp only [joinWithSeps]
            rw [hjoin, pyLstrip, List.append_assoc, List.takeWhile_append_dropWhile,
              List.take_append_drop]
        | none =>
          have hnew : (pyLstrip (fr.drop MAX_MESSAGE_LENGTH)).length ≤ fuel := by
            have h1 : (pyLstrip (fr.drop MAX_MESSAGE_LENGTH)).length
                ≤ (fr.drop MAX_MESSAGE_LENGTH).length := length_dropWhile_le pyIsSpace _
            rw [List.length_drop] at h1
            have : 1 ≤ MAX_MESSAGE_LENGTH := by decide
            omega
          obtain ⟨seps, hseps, hjoin⟩ := ih (pyLstrip (fr.drop MAX_MESSAGE_LENGTH)) hnew
          refine ⟨(fr.drop MAX_MESSAGE_LENGTH).takeWhile pyIsSpace :: seps, ?_, ?_⟩
          · intro t ht
            rcases List.mem_cons.mp ht with rfl | ht
            · intro ch hch
              exact List.mem_takeWhile_imp hch
            · exact hseps t ht
          · simp only [inlineLoop, hr]
            rw [if_neg (by simpa using hemp), if_neg hle]
            simp only [joinWithSeps]
            rw [hjoin, pyLstrip, List.append_assoc, List.takeWhile_append_dropWhile,
              List.take_append_drop]

theorem inlineLoop_length_le :
    ∀ (fuel : Nat) (fr : List Char), ∀ p ∈ inlineLoop fuel fr,
      p.length ≤ MAX_MESSAGE_LENGTH := by
  intro fuel
  induction fuel with
  | zero => intro fr p hp; simp [inlineLoop] at hp
  | succ fuel ih =>
    intro fr p hp
    by_cases hemp : fr.isEmpty
    · simp [inlineLoop, hemp] at hp
    · by_cases hle : fr.length ≤ MAX_MESSAGE_LENGTH
      · simp [inlineLoop, hemp, hle] at hp
        subst hp
        exact hle
      · cases hr : pyRfind '\n' (fr.take MAX_MESSAGE_LENGTH) with
        | some k =>
          obtain ⟨hkn, hkl, _⟩ := pyRfind_take_decomp hr
          simp only [inlineLoop, hr] at hp
          rw [if_neg (by simpa using hemp), if_neg hle] at hp
          rcases List.mem_cons.mp hp with rfl | hp
          · rw [List.length_take]
            omega
          · exact ih _ p hp
        | none =>
          simp only [inlineLoop, hr] at hp
          rw [if_neg (by simpa using hemp), if_neg hle] at hp
          rcases List.mem_cons.mp hp with rfl | hp
          · rw [List.length_take]
            omega
          · exact ih _ p hp

/-- The inline splitter of `process_message` loses only whitespace (the
`lstrip`-ped run after each cut). -/
theorem inline_split_reconstruct (fr : List Char) :
    ∃ seps : List (List Char),
      (∀ t ∈ seps, ∀ ch ∈ t, pyIsSpace ch = true) ∧
      joinWithSeps (inline_split fr) seps = fr :=
  inlineLoop_reconstruct fr.length fr le_rfl

theorem inline_split_length_le (fr : List Char) :
    ∀ p ∈ inline_split fr, p.length ≤ MAX_MESSAGE_LENGTH :=
  inlineLoop_length_le fr.length fr

/-! ### Helper lemmas about the handlers -/

theorem lookupGlobal_update : lookupGlobal "update" = Except.error (PyErr.nameError "update") :=
  rfl

theorem lookupGlobal_prompt : lookupGlobal "prompt" = Except.error (PyErr.nameError "prompt") :=
  rfl

theorem get_file_content_run_eq (downloaded : String) :
    get_file_content_run downloaded = (Except.error (PyErr.nameError "update"), []) := rfl

/-! ### Claim theorems -/

/-- C1, counterexample: with both allow-lists empty, `is_authorized` returns
`false` for the identity `(0, 0)`, refuting the claimed permissive default
(`return False` is the fall-through of lines 42-50). -/
theorem C1_counterexample : ¬ is_authorized [] [] 0 0 = true := by decide

/-- C1 (amended): `is_authorized` returns `true` iff the user id is in the
authorized-user list or the chat id is in the authorized-group list; in
particular with both lists empty it returns `false` for every identity — the
default is deny, not allow. -/
theorem C1_amended_authorize_iff (authorizedUsers authorizedGroups : List Int)
    (user_id chat_id : Int) :
    (is_authorized authorizedUsers authorizedGroups user_id chat_id = true
      ↔ (user_id ∈ authorizedUsers ∨ chat_id ∈ authorizedGroups))
    ∧ is_authorized [] [] user_id chat_id = false := by
  refine ⟨⟨?_, ?_⟩, rfl⟩
  · intro h
    simp only [is_authorized, Bool.or_eq_true, Bool.and_eq_true] at h
    rcases h with ⟨_, h1⟩ | ⟨_, h1⟩
    · exact Or.inl (List.elem_iff.mp h1)
    · exact Or.inr (List.elem_iff.mp h1)
  · intro h
    simp only [is_authorized, Bool.or_eq_true, Bool.and_eq_true]
    rcases h with h | h
    · refine Or.inl ⟨?_, List.elem_iff.mpr h⟩
      cases authorizedUsers with
      | nil => cases h
      | cons a l => rfl
    · refine Or.inr ⟨?_, List.elem_iff.mpr h⟩
      cases authorizedGroups with
      | nil => cases h
      | cons a l => rfl

/-- C2, counterexample: splitting `"ab\ncd"` with `max_length = 3` cuts at
the newline and drops it, so concatenating the parts yields `"abcd"`, not
the original string — the round-trip fails. -/
theorem C2_counterexample :
    concatParts (split_long_message "ab\ncd".toList 3) = "abcd".toList
    ∧ "abcd".toList ≠ "ab\ncd".toList := by decide

/-- C2 (amended): the split is a round trip only up to the separators
dropped at the cuts.  For `split_long_message` re-inserting at each cut the
dropped separator — nothing at a hard cut, one newline at a line-boundary
cut — reproduces `s` exactly; for the inline splitter of `process_message`
the dropped separator at each cut is a (possibly empty) run of whitespace
removed by `lstrip`.  Plain concatenation of the parts is therefore `s` with
exactly those separator characters deleted. -/
theorem C2_amended_split_roundtrip (s : List Char) (max_length : Nat) (h : 1 ≤ max_length) :
    (∃ seps : List (List Char), (∀ t ∈ seps, t = [] ∨ t = ['\n'])
        ∧ joinWithSeps (split_long_message s max_length) seps = s)
    ∧ (∃ seps : List (List Char), (∀ t ∈ seps, ∀ ch ∈ t, pyIsSpace ch = true)
        ∧ joinWithSeps (inline_split s) seps = s) :=
  ⟨split_long_message_reconstruct s max_length h, inline_split_reconstruct s⟩

/-- C2, witness for the amended theorem at `s = "ab\ncd"`, `max_length = 3`. -/
theorem C2_witness :
    1 ≤ 3
    ∧ ((∃ seps : List (List Char), (∀ t ∈ seps, t = [] ∨ t = ['\n'])
          ∧ joinWithSeps (split_long_message "ab\ncd".toList 3) seps = "ab\ncd".toList)
       ∧ (∃ seps : List (List Char), (∀ t ∈ seps, ∀ ch ∈ t, pyIsSpace ch = true)
          ∧ joinWithSeps (inline_split "ab\ncd".toList) seps = "ab\ncd".toList)) :=
  ⟨by decide, C2_amended_split_roundtrip "ab\ncd".toList 3 (by decide)⟩

/-- C3, counterexample: a `/compare` request (no attachment) sends only the
processing notice and then dies with `NameError` on the unbound name
`prompt` (line 400); no provider is invoked, nothing is written, and no
composed two-provider reply is ever sent. -/
theorem C3_counterexample :
    compare_command cfg0 upd0 ""
      = ([Event.send 5 "Processing your request, please wait...".toList],
         some (PyErr.nameError "prompt"))
    ∧ ((compare_command cfg0 upd0 "").fst.all fun e => !isProviderOrDb e) = true := by decide

/-- C3 (amended): for every compare request the handler never invokes a
provider adapter and never sends a composed reply: it sends the processing
notice, fetches the attachment if present, and then raises an unhandled
`NameError` — on `update` inside `get_file_content` when an attachment is
present, otherwise on `prompt` at line 400 — before either
`process_message` call.  (Even with those names repaired, the code composes
no single two-provider message: it would send two separate sequential
replies.) -/
theorem C3_amended_compare_crashes (cfg : Cfg) (upd : Upd) (downloaded : String) :
    (compare_command cfg upd downloaded).snd
      = some (PyErr.nameError (if upd.hasDocument || upd.hasPhoto then "update" else "prompt"))
    ∧ (compare_command cfg upd downloaded).fst
      = Event.send upd.chatId "Processing your request, please wait...".toList
          :: (if upd.hasDocument || upd.hasPhoto then [Event.getFile] else [])
    ∧ ((compare_command cfg upd downloaded).fst.all fun e => !isProviderOrDb e) = true := by
  obtain ⟨u, c, t, hd, hp⟩ := upd
  cases hd <;> cases hp <;> exact ⟨rfl, rfl, rfl⟩

/-- C4, counterexample: an unauthorized identity sending `/compare` with a
document attachment causes a Telegram file fetch (`context.bot.get_file`,
lines 389-391) before any authorization check — `compare_command` contains
none, so a forbidden step precedes the (never reached) authorize step. -/
theorem C4_counterexample :
    is_authorized cfg0.authorizedUsers cfg0.authorizedGroups updDoc.userId updDoc.chatId = false
    ∧ authFirst (compare_command cfg0 updDoc "").fst = false := by decide

/-- C4 (amended): authorization precedes every file fetch, provider call
and database write in `process_message`, `gpt_command`, `claude_command`,
`set_mode_command` and `generate_image_command`; the exception is
`compare_command`, which fetches an attachment before any authorization
check (and, having no check of its own, crashes before ever reaching one). -/
theorem C4_amended_auth_precedes (cfg : Cfg) (upd : Upd) (store : Int → Option String)
    (model_request : Provider) (model_name : String)
    (image_content prompt : Option String) (downloaded : String)
    (oracleG : Except String GptResponse) (oracleC oracleI : Except String String)
    (args : List String) :
    authFirst (process_message cfg upd store model_request model_name image_content prompt
        downloaded).fst = true
    ∧ authFirst (gpt_command cfg upd store oracleG downloaded) = true
    ∧ authFirst (claude_command cfg upd store oracleC downloaded) = true
    ∧ authFirst (set_mode_command cfg upd store args).snd = true
    ∧ authFirst (generate_image_command cfg upd oracleI) = true
    ∧ (upd.hasDocument = true →
        authFirst (compare_command cfg upd downloaded).fst = false) := by
  have hpm : ∀ (mr : Provider) (mn : String) (ic pr : Option String),
      authFirst (process_message cfg upd store mr mn ic pr downloaded).fst = true := by
    intro mr mn ic pr
    simp only [process_message]
    by_cases hauth :
        is_authorized cfg.authorizedUsers cfg.authorizedGroups upd.userId upd.chatId = false
    · rw [if_pos hauth]
      rfl
    · rw [if_neg hauth]
      rfl
  refine ⟨hpm _ _ _ _, ?_, ?_, ?_, ?_, ?_⟩
  · show authFirst (Event.send _ _ :: _) = true
    rw [show ∀ (cid : Int) (txt : List Char) (evs : List Event),
        authFirst (Event.send cid txt :: evs) = authFirst evs from fun _ _ _ => rfl]
    exact hpm _ _ _ _
  · show authFirst (Event.send _ _ :: _) = true
    rw [show ∀ (cid : Int) (txt : List Char) (evs : List Event),
        authFirst (Event.send cid txt :: evs) = authFirst evs from fun _ _ _ => rfl]
    exact hpm _ _ _ _
  · simp only [set_mode_command]
    by_cases hauth :
        is_authorized cfg.authorizedUsers cfg.authorizedGroups upd.userId upd.chatId = false
    · rw [if_pos hauth]
      rfl
    · rw [if_neg hauth]
      cases args with
      | nil => rfl
      | cons m rest =>
        simp only [List.head?]
        by_cases hm : m = "reset"
        · rw [if_pos hm]
          rfl
        · rw [if_neg hm]
          by_cases hm2 : m ≠ "" ∧ (cfg.chatModes.lookup m).isSome
          · rw [if_pos hm2]
            rfl
          · rw [if_neg hm2]
            rfl
  · simp only [generate_image_command]
    by_cases hauth :
        is_authorized cfg.authorizedUsers cfg.authorizedGroups upd.userId upd.chatId = false
    · rw [if_pos hauth]
      rfl
    · rw [if_neg hauth]
      by_cases hpe :
          (pyStrip (pyReplace upd.messageText.toList "/generate_image".toList [])).isEmpty = true
      · rw [if_pos hpe]
        rfl
      · rw [if_neg hpe]
        cases oracleI <;> rfl
  · intro hdoc
    obtain ⟨u, c, t, hd, hp⟩ := upd
    cases hd
    · cases hdoc
    · rfl

/-- C4, witness for the compare exception of the amended theorem. -/
theorem C4_witness :
    updDoc.hasDocument = true
    ∧ authFirst (compare_command cfg0 updDoc "").fst = false :=
  ⟨rfl, (C4_amended_auth_precedes cfg0 updDoc store0 (gpt_request (Except.error "")) "GPT"
    none none "" (Except.error "") (Except.error "") (Except.error "") []).2.2.2.2.2 rfl⟩

/-- C5: for an unauthorized identity, `/gpt` yields exactly the
acknowledgement and the authorization-denial message; `process_message`
returns early (`None`), no provider adapter is invoked, and no `api_usage`
or `conversations` row is written (no provider/database event occurs in the
trace). -/
theorem C5_unauthorized_gpt (cfg : Cfg) (upd : Upd) (store : Int → Option String)
    (oracle : Except String GptResponse) (downloaded : String)
    (h : is_authorized cfg.authorizedUsers cfg.authorizedGroups upd.userId upd.chatId = false) :
    gpt_command cfg upd store oracle downloaded
      = [Event.send upd.chatId "hold on a sec".toList,
         Event.authCheck false,
         Event.send upd.chatId "Sorry, you are not authorized to use this bot.".toList]
    ∧ (process_message cfg upd store (gpt_request oracle) "GPT" none none downloaded).snd = none
    ∧ ((gpt_command cfg upd store oracle downloaded).all fun e => !isProviderOrDb e) = true := by
  have hpm : process_message cfg upd store (gpt_request oracle) "GPT" none none downloaded
      = ([Event.authCheck false,
          Event.send upd.chatId "Sorry, you are not authorized to use this bot.".toList],
         none) := by
    simp only [process_message]
    rw [if_pos h]
  have hg : gpt_command cfg upd store oracle downloaded
      = [Event.send upd.chatId "hold on a sec".toList,
         Event.authCheck false,
         Event.send upd.chatId "Sorry, you are not authorized to use this bot.".toList] := by
    simp only [gpt_command, hpm]
  exact ⟨hg, by rw [hpm], by rw [hg]; rfl⟩

/-- C5, witness at the unauthorized identity `(0, 5)` with empty
allow-lists. -/
theorem C5_witness :
    is_authorized cfg0.authorizedUsers cfg0.authorizedGroups upd0.userId upd0.chatId = false
    ∧ (gpt_command cfg0 upd0 store0 (Except.error "") ""
        = [Event.send upd0.chatId "hold on a sec".toList,
           Event.authCheck false,
           Event.send upd0.chatId "Sorry, you are not authorized to use this bot.".toList]
       ∧ (process_message cfg0 upd0 store0 (gpt_request (Except.error "")) "GPT" none none
            "").snd = none
       ∧ ((gpt_command cfg0 upd0 store0 (Except.error "") "").all
            fun e => !isProviderOrDb e) = true) :=
  ⟨by decide, C5_unauthorized_gpt cfg0 upd0 store0 (Except.error "") "" (by decide)⟩

/-- C6, counterexample: with mode `"m"` (instruction `"be nice"`) and an
image attached, the text segment actually sent to the backend is the bare
prompt `"hi"` (1 word), yet the recorded `prompt_tokens` is the word count
of the mode-prefixed `message_content`, namely 4 — so `prompt_tokens` does
not equal the word count of the input text sent. -/
theorem C6_counterexample :
    claude_sent_text [("m", "be nice")] "hi" (some "m") (some "img") = "hi"
    ∧ wordCount "hi".toList = 1
    ∧ (claude_usage [("m", "be nice")] "hi" "ok" (some "m")).1 = 4
    ∧ (4 : Nat) ≠ 1 := by decide

/-- C6 (amended): `claude_request` records `prompt_tokens` as the
whitespace word count of `message_content` (the mode-prefixed prompt),
`completion_tokens` as the word count of the reply text, and
`total_tokens` as their sum; `message_content` coincides with the text
actually sent exactly when no image is attached (with an image the bare
prompt is sent while the count still uses the mode-prefixed text). -/
theorem C6_amended_claude_estimates (chatModes : List (String × String))
    (prompt responseText : String) (mode image_content : Option String) :
    (claude_usage chatModes prompt responseText mode).1
        = wordCount (claude_message_content chatModes prompt mode).toList
    ∧ (claude_usage chatModes prompt responseText mode).2.1 = wordCount responseText.toList
    ∧ (claude_usage chatModes prompt responseText mode).2.2
        = (claude_usage chatModes prompt responseText mode).1
          + (claude_usage chatModes prompt responseText mode).2.1
    ∧ claude_sent_text chatModes prompt mode none = claude_message_content chatModes prompt mode
    ∧ claude_request (Except.ok responseText) chatModes prompt image_content mode
      = (responseText,
         [Event.apiCall "anthropic",
          Event.dbWriteUsage "anthropic" (claude_usage chatModes prompt responseText mode).1
            (claude_usage chatModes prompt responseText mode).2.1
            (claude_usage chatModes prompt responseText mode).2.2]) :=
  ⟨rfl, rfl, rfl, rfl, rfl⟩

/-- C7, counterexample: user 1 has no active mode as seen from
conversation 20; after `/mode x` issued in conversation 10, the mode
resolved in conversation 20 becomes `"x"` — setting the mode in one
conversation does not leave another conversation's active mode unchanged,
because `context.user_data` is keyed by user, not by conversation. -/
theorem C7_counterexample :
    get_active store0 1 20 = none
    ∧ get_active (set_mode_command cfg1 upd1 store0 ["x"]).fst 1 20 = some "x" := by decide

/-- C7 (amended): active-mode state is keyed per *user*: an authorized
`/mode m` (with `m` a known mode) sets the mode that the same user resolves
in the issuing conversation and in every other conversation alike, and
leaves every other user's state unchanged; set-then-resolve in the same
conversation yields the set mode. -/
theorem C7_amended_mode_per_user (cfg : Cfg) (upd : Upd) (store : Int → Option String)
    (chatB : Int) (m instruction : String)
    (hauth : is_authorized cfg.authorizedUsers cfg.authorizedGroups upd.userId upd.chatId = true)
    (hm : cfg.chatModes.lookup m = some instruction)
    (hres : m ≠ "reset") (hne : m ≠ "") :
    get_active (set_mode_command cfg upd store [m]).fst upd.userId upd.chatId = some m
    ∧ get_active (set_mode_command cfg upd store [m]).fst upd.userId chatB = some m
    ∧ ∀ u, u ≠ upd.userId → (set_mode_command cfg upd store [m]).fst u = store u := by
  have hs : (set_mode_command cfg upd store [m]).fst
      = fun u => if u = upd.userId then some m else store u := by
    simp only [set_mode_command]
    rw [if_neg (by simp [hauth])]
    simp only [List.head?]
    rw [if_neg hres, if_pos ⟨hne, by simp [hm]⟩]
  refine ⟨?_, ?_, ?_⟩
  · rw [get_active, hs]
    simp
  · rw [get_active, hs]
    simp
  · intro u hu
    rw [hs]
    simp [hu]

/-- C7, witness: user 1 in chat 10 sets mode `"x"` of `cfg1`. -/
theorem C7_witness :
    is_authorized cfg1.authorizedUsers cfg1.authorizedGroups upd1.userId upd1.chatId = true
    ∧ cfg1.chatModes.lookup "x" = some "be creative"
    ∧ ("x" : String) ≠ "reset"
    ∧ ("x" : String) ≠ ""
    ∧ (get_active (set_mode_command cfg1 upd1 store0 ["x"]).fst upd1.userId upd1.chatId
         = some "x"
       ∧ get_active (set_mode_command cfg1 upd1 store0 ["x"]).fst upd1.userId 20 = some "x"
       ∧ ∀ u, u ≠ upd1.userId → (set_mode_command cfg1 upd1 store0 ["x"]).fst u = store0 u) :=
  ⟨by decide, by decide, by decide, by decide,
   C7_amended_mode_per_user cfg1 upd1 store0 20 "x" "be creative" (by decide) (by decide)
     (by decide) (by decide)⟩

/-- C8: every part emitted by `split_long_message` has length at most
`max_length`, and every part emitted by the inline splitter of
`process_message` has length at most `MAX_MESSAGE_LENGTH`, before the
`Part i/N:` label is added and before markdown escaping. -/
theorem C8_part_length (s : List Char) (max_length : Nat) (_hmax : 1 ≤ max_length) :
    (∀ p ∈ split_long_message s max_length, p.length ≤ max_length)
    ∧ ∀ p ∈ inline_split s, p.length ≤ MAX_MESSAGE_LENGTH :=
  ⟨split_long_message_length_le s max_length, inline_split_length_le s⟩

/-- C8, witness at `s = "ab\ncd"`, `max_length = 3`. -/
theorem C8_witness :
    1 ≤ 3
    ∧ ((∀ p ∈ split_long_message "ab\ncd".toList 3, p.length ≤ 3)
       ∧ ∀ p ∈ inline_split "ab\ncd".toList, p.length ≤ MAX_MESSAGE_LENGTH) :=
  ⟨by decide, C8_part_length "ab\ncd".toList 3 (by decide)⟩

/-- C9: both adapters catch every exception of the backend call and return
a plain, human-readable error string — their codomain is a plain value, so
no exception ever propagates to the caller — and on success they return the
normal result.  (In a compare this would let the other provider's answer
still be delivered.) -/
theorem C9_adapters_catch_errors (e : String) (chatModes : List (String × String))
    (prompt : String) (image_content mode : Option String)
    (r : GptResponse) (responseText : String) :
    gpt_request (Except.error e) prompt image_content mode
      = ("Error occurred while processing GPT request.", [Event.apiCall "openai"])
    ∧ claude_request (Except.error e) chatModes prompt image_content mode
      = ("Error occurred while processing Claude request.", [Event.apiCall "anthropic"])
    ∧ gpt_request (Except.ok r) prompt image_content mode
      = (String.mk (pyStrip r.text.toList),
         [Event.apiCall "openai",
          Event.dbWriteUsage "openai" r.prompt_tokens r.completion_tokens r.total_tokens])
    ∧ claude_request (Except.ok responseText) chatModes prompt image_content mode
      = (responseText,
         [Event.apiCall "anthropic",
          Event.dbWriteUsage "anthropic" (claude_usage chatModes prompt responseText mode).1
            (claude_usage chatModes prompt responseText mode).2.1
            (claude_usage chatModes prompt responseText mode).2.2]) :=
  ⟨rfl, rfl, rfl, rfl⟩

/-- C10: every call of `get_file_content` raises `NameError` on the unbound
name `update` before any download happens (its trace is empty — in
particular no `download` event), so attachment resolution in
`process_message` always swallows the failure and proceeds with
`image_content = None`. -/
theorem C10_get_file_content_crashes (downloaded : String) (upd : Upd) :
    get_file_content_run downloaded = (Except.error (PyErr.nameError "update"), [])
    ∧ (resolve_attachment upd downloaded).fst = none := by
  refine ⟨rfl, ?_⟩
  obtain ⟨u, c, t, hd, hp⟩ := upd
  cases hd <;> cases hp <;> rfl

end TGBot
